import Mathlib

/-!
# Verification of the AMBF-Pleat-Saw firmware

A shallow embedding of the two firmware images of the repository:

* `src/firmware/esp32b_backstop/src/main.cpp` (namespace `ESP32B`): the
  closed-loop positioning axis with an interrupt step-pulse generator,
  a 4x quadrature decoder, and a closed-loop correction pass.
* `src/firmware/esp32a_axis12/src/main.cpp` (namespace `ESP32A`): the
  open-loop blade (M1, rpm/frequency) and fixture feed (M2, velocity)
  controller.

C `float` / `double` arithmetic is modelled by exact rational arithmetic
over `ℚ`; 32-bit signed integers are modelled by `Int` (the step counters
never approach the wrap point at the magnitudes the firmware handles);
a C cast of a floating value to a signed integer truncates toward zero,
modelled by `i32trunc`.  Serial responses are modelled by message
inductives carrying the exact values the firmware prints.
-/

/-- Truncation toward zero of a rational value, the behaviour of the C cast
`(int32_t)x` applied to a floating-point value. -/
def i32trunc (q : ℚ) : Int := if 0 ≤ q then ⌊q⌋ else ⌈q⌉

namespace ESP32B

/- ===== Compile-time constants of esp32b_backstop/src/main.cpp ===== -/

/-- Model of `PITCH_MM` : T10 belt pitch. -/
def PITCH_MM : ℚ := 10

/-- Model of `TEETH` : 15T pulley. -/
def TEETH : ℚ := 15

/-- Model of `CIRC_MM = PITCH_MM * TEETH` : 150 mm per revolution. -/
def CIRC_MM : ℚ := PITCH_MM * TEETH

/-- Model of `CALIBRATION_SCALE = 1.005324f`. -/
def CALIBRATION_SCALE : ℚ := 1005324 / 1000000

/-- Model of `ENCODER_PPR = 400.0f`. -/
def ENCODER_PPR : ℚ := 400

/-- Model of `COUNTS_PER_REV = ENCODER_PPR * 4.0f * CALIBRATION_SCALE`. -/
def COUNTS_PER_REV : ℚ := ENCODER_PPR * 4 * CALIBRATION_SCALE

/-- Model of `MM_PER_COUNT = CIRC_MM / COUNTS_PER_REV`. -/
def MM_PER_COUNT : ℚ := CIRC_MM / COUNTS_PER_REV

/-- Model of `IN_PER_COUNT = MM_PER_COUNT / 25.4f`. -/
def IN_PER_COUNT : ℚ := MM_PER_COUNT / (254 / 10)

/-- Model of `STEPS_PER_REV = 6400.0f`. -/
def STEPS_PER_REV : ℚ := 6400

/-- Model of `STEPS_PER_MM = (STEPS_PER_REV * CALIBRATION_SCALE) / CIRC_MM`. -/
def STEPS_PER_MM : ℚ := STEPS_PER_REV * CALIBRATION_SCALE / CIRC_MM

/-- Model of `STEPS_PER_IN = STEPS_PER_MM * 25.4f`. -/
def STEPS_PER_IN : ℚ := STEPS_PER_MM * (254 / 10)

/-- Model of `DEFAULT_VELOCITY_IPS = 0.0492f`. -/
def DEFAULT_VELOCITY_IPS : ℚ := 492 / 10000

/-- Model of `POSITION_TOLERANCE_IN = 0.2f / 25.4f`. -/
def POSITION_TOLERANCE_IN : ℚ := (2 / 10) / (254 / 10)

/-- Model of `MAX_POSITION_ERROR_IN = 0.200f`. -/
def MAX_POSITION_ERROR_IN : ℚ := 2 / 10

/-- Model of `CORRECTION_VELOCITY_SCALE = 0.10f`. -/
def CORRECTION_VELOCITY_SCALE : ℚ := 1 / 10

/-- Model of `MIN_CORRECTION_VEL_IPS = 0.005f`. -/
def MIN_CORRECTION_VEL_IPS : ℚ := 5 / 1000

/-- Model of `VEL_ALPHA = 0.30f` : EMA smoothing factor. -/
def VEL_ALPHA : ℚ := 3 / 10

/-- The tolerance in steps used by `onTimer`:
`(int32_t)(POSITION_TOLERANCE_IN * STEPS_PER_IN)`. -/
def toleranceSteps : Int := i32trunc (POSITION_TOLERANCE_IN * STEPS_PER_IN)

/- ===== State ===== -/

/-- The `encoder` global of the backstop firmware. -/
structure Encoder where
  detected : Bool
  counts : Int
  last_ab : Fin 4
  last_counts : Int
  last_delta_counts : Int
  position_in : ℚ
  velocity_ips : ℚ
  velocity_ema_ips : ℚ
  last_vel_ms : Nat
  deriving DecidableEq, Repr

/-- The `motor` global of the backstop firmware. -/
structure Motor where
  target_steps : Int
  current_steps : Int
  velocity_ips : ℚ
  base_velocity_ips : ℚ
  in_motion : Bool
  direction : Bool
  step_pin_state : Bool
  pulse_counter : Nat
  motion_complete_flag : Bool
  step_interval_us : Nat
  target_position_in : ℚ
  closed_loop_enabled : Bool
  deriving DecidableEq, Repr

/-- Full state of the backstop controller: the two globals plus the physical
output lines driven through `digitalWrite` (`true` = HIGH).  `step_pin` is the
level of `M3_STEP_PIN`, `dir_pin` of `M3_DIR_PIN`, `timer_alarm_us` the value
programmed into the hardware timer by `timerAlarmWrite`. -/
structure System where
  motor : Motor
  encoder : Encoder
  step_pin : Bool
  dir_pin : Bool
  timer_alarm_us : Nat
  deriving DecidableEq, Repr

/-- Serial responses of the backstop firmware, carrying the exact values the
firmware would print. -/
inductive Msg where
  | atTarget (pos : ℚ)
  | atTargetWithError (pos err : ℚ)
  | moving (fromPos toPos : ℚ)
  | correcting (err target : ℚ)
  | errorPositionTooLarge (err target actual : ℚ)
  | stoppedMsg (motorPos : ℚ) (encPos : Option ℚ)
  | homed
  | encoderReset
  | velocityMsg (v : ℚ)
  | errorVelocityNonPositive
  deriving DecidableEq, Repr

/- ===== Step pulse engine (timer ISR) ===== -/

/-- Model of `onTimer` (main.cpp:161-198): the timer ISR.  When `in_motion`, either
finishes the move (error within `toleranceSteps`) or advances the 2-phase
pulse state machine, updating `current_steps` on the falling edge. -/
def onTimer (s : System) : System :=
  if s.motor.in_motion then
    let error_steps := s.motor.target_steps - s.motor.current_steps
    if |error_steps| ≤ toleranceSteps then
      { s with motor := { s.motor with in_motion := false, motion_complete_flag := true },
               step_pin := false }
    else if ¬ s.motor.step_pin_state then
      { s with motor := { s.motor with step_pin_state := true, pulse_counter := 0 },
               step_pin := true }
    else
      let pc := (s.motor.pulse_counter + 1) % 2 ^ 32
      if pc ≥ 1 then
        let delta : Int := if s.motor.direction then 1 else -1
        let m := { s.motor with
          pulse_counter := pc, step_pin_state := false,
          current_steps := s.motor.current_steps + delta }
        { s with motor := m, step_pin := false }
      else
        { s with motor := { s.motor with pulse_counter := pc } }
  else s

/- ===== Quadrature decoder ===== -/

/-- Model of `quad_table` (main.cpp:201-206): the 16-entry signed transition table. -/
def quad_table : Fin 16 → Int :=
  ![0, -1, 1, 0, 1, 0, 0, -1, -1, 0, 0, 1, 0, 1, -1, 0]

/-- The 2-bit A/B state code `(a << 1) | b`. -/
def abCode (a b : Bool) : Fin 4 :=
  ⟨(cond a 1 0) * 2 + cond b 1 0, by cases a <;> cases b <;> decide⟩

/-- The 4-bit table index `(last_ab << 2) | curr`; since both arguments are
below 4 the bit fields do not overlap, so the or equals `p * 4 + c`. -/
def quadIdx (p c : Fin 4) : Fin 16 :=
  ⟨p.val * 4 + c.val, by have hp := p.isLt; have hc := c.isLt; omega⟩

/-- Model of `handleEncoderChange` (main.cpp:208-215): the encoder-edge ISR, reading
the current pin levels `a`, `b`. -/
def handleEncoderChange (a b : Bool) (s : System) : System :=
  let curr := abCode a b
  { s with encoder := { s.encoder with
      counts := s.encoder.counts + quad_table (quadIdx s.encoder.last_ab curr),
      last_ab := curr } }

/- ===== Cooperative-context helpers ===== -/

/-- Model of `syncMotorStepsWithEncoder` (main.cpp:130-138). -/
def syncMotorStepsWithEncoder (s : System) : System :=
  if ¬ s.encoder.detected then s
  else
    { s with motor := { s.motor with
        current_steps := i32trunc (s.encoder.position_in * STEPS_PER_IN) } }

/-- Model of `resetEncoderCount` (main.cpp:242-248). -/
def resetEncoderCount (s : System) : System :=
  { s with encoder := { s.encoder with counts := 0, last_counts := 0 } }

/-- Model of `resetEncoder` (main.cpp:279-285). -/
def resetEncoder (s : System) : System × List Msg :=
  let s1 := resetEncoderCount s
  ({ s1 with encoder := { s1.encoder with
      velocity_ips := 0, velocity_ema_ips := 0, position_in := 0 } },
   [Msg.encoderReset])

/-- Model of `updateEncoder` (main.cpp:250-277), with the current `millis()` value as
parameter; the `uint32_t` elapsed-time subtraction is taken modulo `2^32`. -/
def updateEncoder (now : Nat) (s : System) : System :=
  if ¬ s.encoder.detected then s
  else
    let current_count := s.encoder.counts
    let delta := current_count - s.encoder.last_counts
    let e1 := { s.encoder with
      last_counts := current_count,
      last_delta_counts := delta,
      position_in := (current_count : ℚ) * IN_PER_COUNT }
    if now ≠ e1.last_vel_ms then
      let dt : ℚ := (((now + 2 ^ 32 - e1.last_vel_ms % 2 ^ 32) % 2 ^ 32 : Nat) : ℚ) / 1000
      let e2 := { e1 with last_vel_ms := now }
      if 0 < dt then
        let vi := (e2.last_delta_counts : ℚ) * IN_PER_COUNT / dt
        { s with encoder := { e2 with
            velocity_ips := vi,
            velocity_ema_ips := VEL_ALPHA * vi + (1 - VEL_ALPHA) * e2.velocity_ema_ips } }
      else { s with encoder := e2 }
    else { s with encoder := e1 }

/-- Model of `updateTimerFrequency` (main.cpp:554-559). -/
def updateTimerFrequency (s : System) : System :=
  let step_rate := s.motor.velocity_ips * STEPS_PER_IN
  let step_rate := if step_rate < 10 then 10 else step_rate
  let interval := (i32trunc (1000000 / step_rate)).toNat
  { s with motor := { s.motor with step_interval_us := interval },
           timer_alarm_us := interval / 2 }

/- ===== Commands ===== -/

/-- Model of `gotoPosition` (main.cpp:562-599). -/
def gotoPosition (position_in : ℚ) (s : System) : System × List Msg :=
  let s0 := { s with motor := { s.motor with target_position_in := position_in } }
  let actual_pos := if s0.encoder.detected then s0.encoder.position_in
                    else (s0.motor.current_steps : ℚ) / STEPS_PER_IN
  let s1 := if s0.encoder.detected then syncMotorStepsWithEncoder s0 else s0
  let error_in := position_in - actual_pos
  if |error_in| ≤ POSITION_TOLERANCE_IN then
    (s1, [Msg.atTarget actual_pos])
  else
    let m := { s1.motor with
      target_steps := s1.motor.current_steps + i32trunc (error_in * STEPS_PER_IN) }
    let md := if error_in > 0 then ({ m with direction := true }, true)
              else ({ m with direction := false }, false)
    let s2 := updateTimerFrequency { s1 with motor := md.1, dir_pin := md.2 }
    let s3 := { s2 with motor := { s2.motor with in_motion := true } }
    let response := if s3.encoder.detected then
        Msg.moving s3.encoder.position_in position_in
      else
        Msg.moving ((s3.motor.current_steps : ℚ) / STEPS_PER_IN) position_in
    (s3, [response])

/-- Model of `stop` (main.cpp:613-624).  Note: it clears `in_motion` but does not
write the step output pin. -/
def stop (s : System) : System × List Msg :=
  let s1 := { s with motor := { s.motor with in_motion := false } }
  let motor_pos := (s1.motor.current_steps : ℚ) / STEPS_PER_IN
  (s1, [Msg.stoppedMsg motor_pos
          (if s1.encoder.detected then some s1.encoder.position_in else none)])

/-- Model of `home` (main.cpp:601-611).  The source zeroes `current_steps`, then (when
an encoder is present) overwrites it from the encoder position via
`syncMotorStepsWithEncoder`, and only afterwards resets the encoder. -/
def home (s : System) : System × List Msg :=
  let s1 := { s with motor := { s.motor with
      current_steps := 0, target_steps := 0, target_position_in := 0,
      in_motion := false } }
  let s2 := if s1.encoder.detected then syncMotorStepsWithEncoder s1 else s1
  let r := resetEncoder s2
  (r.1, r.2 ++ [Msg.homed])

/-- Model of `setVelocity` (main.cpp:626-642). -/
def setVelocity (vel_ips : ℚ) (s : System) : System × List Msg :=
  if vel_ips ≤ 0 then (s, [Msg.errorVelocityNonPositive])
  else
    let s1 := { s with motor := { s.motor with
        base_velocity_ips := vel_ips, velocity_ips := vel_ips } }
    let s2 := if s1.motor.in_motion then updateTimerFrequency s1 else s1
    (s2, [Msg.velocityMsg vel_ips])

/-- Model of `closedLoopCorrection` (main.cpp:411-467).  The mandatory settle delay
(`delay(CORRECTION_SETTLE_MS)`) suspends the cooperative context but has no
state effect, so it does not appear in the state transformation. -/
def closedLoopCorrection (s : System) : System × List Msg :=
  let actual_pos := s.encoder.position_in
  let error_in := s.motor.target_position_in - actual_pos
  if |error_in| ≤ POSITION_TOLERANCE_IN then
    (s, [Msg.atTargetWithError actual_pos error_in])
  else if |error_in| > MAX_POSITION_ERROR_IN then
    let r := stop s
    (r.1, Msg.errorPositionTooLarge error_in s.motor.target_position_in actual_pos :: r.2)
  else
    let s1 := syncMotorStepsWithEncoder s
    let correction_steps := i32trunc (error_in * STEPS_PER_IN)
    let m0 := { s1.motor with target_steps := s1.motor.current_steps + correction_steps }
    let md := if correction_steps > 0 then ({ m0 with direction := true }, true)
              else ({ m0 with direction := false }, false)
    let m1 := { md.1 with velocity_ips := md.1.base_velocity_ips }
    let correction_vel0 := m1.base_velocity_ips * CORRECTION_VELOCITY_SCALE
    let correction_vel := if correction_vel0 < MIN_CORRECTION_VEL_IPS
                          then MIN_CORRECTION_VEL_IPS else correction_vel0
    let m2 := { m1 with velocity_ips := correction_vel }
    let s2 := updateTimerFrequency { s1 with motor := m2, dir_pin := md.2 }
    let s3 := { s2 with motor := { s2.motor with in_motion := true } }
    (s3, [Msg.correcting error_in s.motor.target_position_in])

/-- The motion-completion fragment of `loop` (main.cpp:384-396): consume the
completion flag and either run the closed-loop correction or report the
open-loop position. -/
def processMotionComplete (s : System) : System × List Msg :=
  if s.motor.motion_complete_flag then
    let s1 := { s with motor := { s.motor with motion_complete_flag := false } }
    if s1.motor.closed_loop_enabled then closedLoopCorrection s1
    else (s1, [Msg.atTarget ((s1.motor.current_steps : ℚ) / STEPS_PER_IN)])
  else (s, [])

/-- The state established by `setup()` (main.cpp:309-373): both output pins
driven low, all counters zeroed, the encoder detected (the interrupt encoder
init always returns `true`), closed loop enabled, `last_ab` latched from the
current pin levels `a`, `b`. -/
def initSystem (a b : Bool) : System :=
  { motor := {
      target_steps := 0, current_steps := 0,
      velocity_ips := DEFAULT_VELOCITY_IPS, base_velocity_ips := DEFAULT_VELOCITY_IPS,
      in_motion := false, direction := true, step_pin_state := false,
      pulse_counter := 0, motion_complete_flag := false,
      step_interval_us := 0, target_position_in := 0, closed_loop_enabled := true },
    encoder := {
      detected := true, counts := 0, last_ab := abCode a b,
      last_counts := 0, last_delta_counts := 0, position_in := 0,
      velocity_ips := 0, velocity_ema_ips := 0, last_vel_ms := 0 },
    step_pin := false, dir_pin := false, timer_alarm_us := 0 }

/-- Reachability of a backstop controller state: the initial `setup()` state,
closed under the timer ISR, the encoder-edge ISR, the cooperative-loop
encoder update and completion processing, and every state-changing serial
command (the `i`, `?` and unknown-command handlers only print). -/
inductive Reachable : System → Prop where
  | init (a b : Bool) : Reachable (initSystem a b)
  | tick {s : System} : Reachable s → Reachable (onTimer s)
  | encoderEdge (a b : Bool) {s : System} :
      Reachable s → Reachable (handleEncoderChange a b s)
  | encoderUpdate (now : Nat) {s : System} :
      Reachable s → Reachable (updateEncoder now s)
  | motionComplete {s : System} : Reachable s → Reachable (processMotionComplete s).1
  | cmdGoto (p : ℚ) {s : System} : Reachable s → Reachable (gotoPosition p s).1
  | cmdHome {s : System} : Reachable s → Reachable (home s).1
  | cmdStop {s : System} : Reachable s → Reachable (stop s).1
  | cmdSetVelocity (v : ℚ) {s : System} :
      Reachable s → Reachable (setVelocity v s).1
  | cmdResetEncoder {s : System} : Reachable s → Reachable (resetEncoder s).1

end ESP32B

namespace ESP32A

/- ===== Compile-time constants of esp32a_axis12/src/main.cpp ===== -/

/-- Model of `M1_PULSES_PER_REV = 22333`. -/
def M1_PULSES_PER_REV : ℚ := 22333

/-- Model of `MAX_FREQ_HZ = 375000.0`. -/
def MAX_FREQ_HZ : ℚ := 375000

/-- Model of `MIN_FREQ_HZ = 1.0`. -/
def MIN_FREQ_HZ : ℚ := 1

/-- Model of `M2_STEPS_PER_MM = 750.0`. -/
def M2_STEPS_PER_MM : ℚ := 750

/- ===== State ===== -/

/-- The `m1` global (blade spindle). -/
structure M1 where
  running : Bool
  rpm : Nat
  freq_hz : ℚ
  deriving DecidableEq, Repr

/-- The `m2` global (fixture feed). -/
structure M2 where
  in_motion : Bool
  direction_fwd : Bool
  vel_mm_s : ℚ
  freq_hz : ℚ
  deriving DecidableEq, Repr

/-- Full state of the axis12 controller: the two motor records, the MCPWM
peripheral state for each step output (`…_pwm_freq` is the `uint32_t`
frequency last programmed by `mcpwm_set_frequency`, `…_pwm_enabled` whether
the output is producing a 50%-duty pulse train or is held low), the two
direction pins, the level of the M2 home sensor input (`true` = pin LOW =
sensor asserted), and the loop bookkeeping counters. -/
structure System where
  m1 : M1
  m2 : M2
  m1_pwm_freq : Nat
  m1_pwm_enabled : Bool
  m2_pwm_freq : Nat
  m2_pwm_enabled : Bool
  m1_dir_pin : Bool
  m2_dir_pin : Bool
  home_pin_low : Bool
  heartbeat_counter : Nat
  last_status_ms : Nat
  deriving DecidableEq, Repr

/-- Serial responses of the axis12 firmware. -/
inductive Msg where
  | idResponse
  | statusResponse (m1running : Bool) (rpm : Nat) (m2moving : Bool) (vel : ℚ) (fwd : Bool)
  | m1Run (rpm : Nat) (freq : ℚ)
  | m1Stopped
  | m2Fwd
  | m2Rev
  | m2Stopped
  | m2VelSet (v : ℚ)
  | errorM1RpmRange
  | errorM2VelRange
  | errorM2HomeActive
  | errorM1Unknown
  | errorM2Unknown
  | errorUnknown
  deriving DecidableEq, Repr

/- ===== PWM helpers ===== -/

/-- The clamp the two `*_pwm_set_frequency` functions apply before
programming the peripheral: raise below `MIN_FREQ_HZ`, then cap above
`MAX_FREQ_HZ`. -/
def clampFreq (freq_hz : ℚ) : ℚ :=
  if (if freq_hz < MIN_FREQ_HZ then MIN_FREQ_HZ else freq_hz) > MAX_FREQ_HZ
  then MAX_FREQ_HZ
  else (if freq_hz < MIN_FREQ_HZ then MIN_FREQ_HZ else freq_hz)

/-- Model of `m1_pwm_set_frequency` (main.cpp:338-344): clamp into
`[MIN_FREQ_HZ, MAX_FREQ_HZ]` and program the truncated `uint32_t` value. -/
def m1_pwm_set_frequency (freq_hz : ℚ) (s : System) : System :=
  { s with m1_pwm_freq := (i32trunc (clampFreq freq_hz)).toNat }

/-- Model of `m1_pwm_enable` (main.cpp:346-354). -/
def m1_pwm_enable (enable : Bool) (s : System) : System :=
  { s with m1_pwm_enabled := enable }

/-- Model of `m2_pwm_set_frequency` (main.cpp:356-361). -/
def m2_pwm_set_frequency (freq_hz : ℚ) (s : System) : System :=
  { s with m2_pwm_freq := (i32trunc (clampFreq freq_hz)).toNat }

/-- Model of `m2_pwm_enable` (main.cpp:363-371). -/
def m2_pwm_enable (enable : Bool) (s : System) : System :=
  { s with m2_pwm_enabled := enable }

/- ===== M1 control ===== -/

/-- Model of `m1_set_rpm` (main.cpp:214-234).  The argument arrives through
`arg.toInt()` into a `uint16_t`, so it is a natural number below `2^16`;
the range gate makes the bound irrelevant. -/
def m1_set_rpm (rpm : Nat) (s : System) : System × List Msg :=
  if rpm < 100 ∨ rpm > 6000 then (s, [Msg.errorM1RpmRange])
  else
    let freq0 : ℚ := (rpm : ℚ) * M1_PULSES_PER_REV / 60
    let freq := if freq0 > MAX_FREQ_HZ then MAX_FREQ_HZ else freq0
    let s1 := { s with m1 := { running := s.m1.running, rpm := rpm, freq_hz := freq } }
    let s2 := m1_pwm_set_frequency freq s1
    let s3 := m1_pwm_enable true s2
    let s4 := { s3 with m1 := { s3.m1 with running := true } }
    (s4, [Msg.m1Run rpm freq])

/-- Model of `m1_stop` (main.cpp:236-241). -/
def m1_stop (s : System) : System × List Msg :=
  let s1 := m1_pwm_enable false s
  let s2 := { s1 with m1 := { s1.m1 with running := false, freq_hz := 0 } }
  (s2, [Msg.m1Stopped])

/- ===== M2 control ===== -/

/-- Model of `is_m2_home_active` (main.cpp:308-310): the sensor is active when the
home pin reads LOW. -/
def is_m2_home_active (s : System) : Bool := s.home_pin_low

/-- Model of `m2_feed_forward` (main.cpp:245-259).  `M2_DIR_FWD` is `false`, so the
direction pin is driven LOW for forward. -/
def m2_feed_forward (s : System) : System × List Msg :=
  let s1 := { s with m2_dir_pin := false }
  let s2 := { s1 with m2 := { s1.m2 with direction_fwd := true, in_motion := true } }
  let vel := if s2.m2.vel_mm_s = 0 then (120 : ℚ) else s2.m2.vel_mm_s
  let freq := vel * M2_STEPS_PER_MM
  let s3 := { s2 with m2 := { s2.m2 with vel_mm_s := vel, freq_hz := freq } }
  let s4 := m2_pwm_set_frequency freq s3
  let s5 := m2_pwm_enable true s4
  (s5, [Msg.m2Fwd])

/-- Model of `m2_feed_reverse` (main.cpp:261-280): rejected outright when the home
sensor is asserted; otherwise drive the direction pin HIGH and start the
pulse train. -/
def m2_feed_reverse (s : System) : System × List Msg :=
  if is_m2_home_active s then (s, [Msg.errorM2HomeActive])
  else
    let s1 := { s with m2_dir_pin := true }
    let s2 := { s1 with m2 := { s1.m2 with direction_fwd := false, in_motion := true } }
    let vel := if s2.m2.vel_mm_s = 0 then (120 : ℚ) else s2.m2.vel_mm_s
    let freq := vel * M2_STEPS_PER_MM
    let s3 := { s2 with m2 := { s2.m2 with vel_mm_s := vel, freq_hz := freq } }
    let s4 := m2_pwm_set_frequency freq s3
    let s5 := m2_pwm_enable true s4
    (s5, [Msg.m2Rev])

/-- Model of `m2_stop` (main.cpp:282-287). -/
def m2_stop (s : System) : System × List Msg :=
  let s1 := m2_pwm_enable false s
  let s2 := { s1 with m2 := { s1.m2 with in_motion := false, freq_hz := 0 } }
  (s2, [Msg.m2Stopped])

/-- Model of `m2_set_velocity` (main.cpp:289-306). -/
def m2_set_velocity (vel_mm_s : ℚ) (s : System) : System × List Msg :=
  if vel_mm_s < 1 ∨ vel_mm_s > 400 then (s, [Msg.errorM2VelRange])
  else
    let s1 := { s with m2 := { s.m2 with vel_mm_s := vel_mm_s } }
    let s2 :=
      if s1.m2.in_motion then
        let freq := s1.m2.vel_mm_s * M2_STEPS_PER_MM
        m2_pwm_set_frequency freq { s1 with m2 := { s1.m2 with freq_hz := freq } }
      else s1
    (s2, [Msg.m2VelSet vel_mm_s])

/-- Model of `m2_check_home_stop` (main.cpp:312-316): stop a reverse feed as soon as
the home sensor asserts. -/
def m2_check_home_stop (s : System) : System × List Msg :=
  if s.m2.in_motion ∧ ¬ s.m2.direction_fwd ∧ is_m2_home_active s then m2_stop s
  else (s, [])

/- ===== Dispatcher and main loop ===== -/

/-- The command alternatives distinguished by `processSerialCommand`
(main.cpp:150-210), after tokenization of the serial line. -/
inductive Cmd where
  | idQuery
  | statusQuery
  | m1Rpm (rpm : Nat)
  | m1StopCmd
  | m1UnknownSub
  | m2FwdCmd
  | m2RevCmd
  | m2StopCmd
  | m2Vel (v : ℚ)
  | m2UnknownSub
  | unknown
  deriving DecidableEq, Repr

/-- Model of `queryStatus` (main.cpp:320-329). -/
def queryStatus (s : System) : System × List Msg :=
  (s, [Msg.statusResponse s.m1.running s.m1.rpm s.m2.in_motion s.m2.vel_mm_s
        s.m2.direction_fwd])

/-- The dispatch switch of `processSerialCommand` (main.cpp:150-210). -/
def processCmd (c : Cmd) (s : System) : System × List Msg :=
  match c with
  | Cmd.idQuery => (s, [Msg.idResponse])
  | Cmd.statusQuery => queryStatus s
  | Cmd.m1Rpm rpm => m1_set_rpm rpm s
  | Cmd.m1StopCmd => m1_stop s
  | Cmd.m1UnknownSub => (s, [Msg.errorM1Unknown])
  | Cmd.m2FwdCmd => m2_feed_forward s
  | Cmd.m2RevCmd => m2_feed_reverse s
  | Cmd.m2StopCmd => m2_stop s
  | Cmd.m2Vel v => m2_set_velocity v s
  | Cmd.m2UnknownSub => (s, [Msg.errorM2Unknown])
  | Cmd.unknown => (s, [Msg.errorUnknown])

/-- One iteration of `loop` (main.cpp:134-146): process at most one pending
serial command, run the reverse-feed home check, then the 100 ms heartbeat
bookkeeping.  `now` is the `millis()` reading of this iteration; the
`uint32_t` elapsed-time subtraction is taken modulo `2^32`. -/
def loopIter (cmd : Option Cmd) (now : Nat) (s : System) : System × List Msg :=
  let r1 := match cmd with
    | none => (s, ([] : List Msg))
    | some c => processCmd c s
  let r2 := m2_check_home_stop r1.1
  let s2 := r2.1
  let s3 :=
    if (now + 2 ^ 32 - s2.last_status_ms % 2 ^ 32) % 2 ^ 32 ≥ 100 then
      { s2 with last_status_ms := now, heartbeat_counter := s2.heartbeat_counter + 1 }
    else s2
  (s3, r1.2 ++ r2.2)

end ESP32A

namespace ESP32B

/- ===== Quadrature edge sequences ===== -/

/-- The successor of a 2-bit A/B state along one rotation direction (the
direction the table counts as `+1`): the Gray cycle `00 → 10 → 11 → 01 → 00`. -/
def fwdNext : Fin 4 → Fin 4 := ![2, 0, 3, 1]

/-- The successor along the opposite rotation direction (counted as `-1`):
the Gray cycle `00 → 01 → 11 → 10 → 00`. -/
def revNext : Fin 4 → Fin 4 := ![1, 3, 0, 2]

/-- The impossible transition in which both channels change at once. -/
def flipBoth : Fin 4 → Fin 4 := ![3, 2, 1, 0]

/-- Run a list of encoder-edge events (each carrying the pin levels read by
the ISR) through `handleEncoderChange`. -/
def runEdges (s : System) : List (Bool × Bool) → System
  | [] => s
  | (a, b) :: t => runEdges (handleEncoderChange a b s) t

/-- An edge list is consistent with a single rotation direction described by
the state-successor function `next` when every observed A/B state either
repeats the previous state (a bounce) or advances one step along `next`. -/
def consistentWith (next : Fin 4 → Fin 4) : Fin 4 → List (Bool × Bool) → Bool
  | _, [] => true
  | p, (a, b) :: t =>
    if abCode a b = p ∨ abCode a b = next p then consistentWith next (abCode a b) t
    else false

/-- The number of genuine (non-bounce) steps in an edge list. -/
def advanceCount (next : Fin 4 → Fin 4) : Fin 4 → List (Bool × Bool) → Nat
  | _, [] => 0
  | p, (a, b) :: t =>
    (if abCode a b = next p then 1 else 0) + advanceCount next (abCode a b) t

/- ===== Concrete states used as verification inputs ===== -/

/-- The state right after `setup()` with both encoder pins reading low. -/
def sInit : System := initSystem false false

/-- After `g1` from the initial state: a 1-inch move is in flight. -/
def sMoving : System := (gotoPosition 1 sInit).1

/-- After one timer tick of the move: the rising phase, step output HIGH. -/
def sPulseHigh : System := onTimer sMoving

/-- After an `s` stop command arriving mid-pulse. -/
def sStopMid : System := (stop sPulseHigh).1

/-- The value of `sMoving` written out as a record literal (1 inch is 1089
steps after truncation; at the default velocity the step interval truncates
to 18655 us and the timer alarm to 9327 us). -/
def sMovingLit : System :=
  { motor := {
      target_steps := 1089, current_steps := 0,
      velocity_ips := DEFAULT_VELOCITY_IPS, base_velocity_ips := DEFAULT_VELOCITY_IPS,
      in_motion := true, direction := true, step_pin_state := false,
      pulse_counter := 0, motion_complete_flag := false,
      step_interval_us := 18655, target_position_in := 1, closed_loop_enabled := true },
    encoder := sInit.encoder,
    step_pin := false, dir_pin := true, timer_alarm_us := 9327 }

/-- A handcrafted in-flight forward move used as a plain test vector:
100 steps commanded, none taken yet. -/
def mRun : Motor :=
  { target_steps := 100, current_steps := 0,
    velocity_ips := 1, base_velocity_ips := 1,
    in_motion := true, direction := true, step_pin_state := false,
    pulse_counter := 0, motion_complete_flag := false,
    step_interval_us := 1000, target_position_in := 1, closed_loop_enabled := true }

/-- System state around `mRun`. -/
def sRun : System :=
  { motor := mRun, encoder := sInit.encoder,
    step_pin := false, dir_pin := true, timer_alarm_us := 500 }

/-- Model of `sRun` but 95 steps already taken: 5 steps short, within tolerance. -/
def sRunNear : System :=
  { sRun with motor := { mRun with current_steps := 95 } }

/-- Model of `sRun` in the high phase of a pulse. -/
def sRunHigh : System :=
  { sRun with motor := { mRun with step_pin_state := true }, step_pin := true }

/-- An idle state whose encoder has accumulated 1.000 inch of measured
position (273 counts is about that much travel). -/
def sEx6 : System :=
  { sInit with encoder := { sInit.encoder with
      counts := 273, last_counts := 273, position_in := 1 } }

/-- Completed open-loop move whose encoder-measured error is 0.1 in:
strictly between the tolerance and the alarm bound. -/
def sErrSmall : System :=
  { sInit with motor := { sInit.motor with target_position_in := 1 / 10 } }

/-- Completed open-loop move whose encoder-measured error is exactly
`MAX_POSITION_ERROR_IN`. -/
def sErrAtMax : System :=
  { sInit with motor := { sInit.motor with target_position_in := 2 / 10 } }

/-- Completed open-loop move whose encoder-measured error is 0.3 in, beyond
the alarm bound. -/
def sErrOverMax : System :=
  { sInit with motor := { sInit.motor with target_position_in := 3 / 10 } }

end ESP32B

namespace ESP32A

/-- The state right after `setup()` (main.cpp:89-130): both motors zeroed by
`memset`, both MCPWM timers initialized at 1000 Hz with their outputs held
low, both direction pins low; `homeLow` is the level read on the home input. -/
def initSystem (homeLow : Bool) : System :=
  { m1 := { running := false, rpm := 0, freq_hz := 0 },
    m2 := { in_motion := false, direction_fwd := false, vel_mm_s := 0, freq_hz := 0 },
    m1_pwm_freq := 1000, m1_pwm_enabled := false,
    m2_pwm_freq := 1000, m2_pwm_enabled := false,
    m1_dir_pin := false, m2_dir_pin := false,
    home_pin_low := homeLow, heartbeat_counter := 0, last_status_ms := 0 }

/-- A reverse feed in flight (started while the home sensor was clear) at the
moment the home sensor asserts. -/
def sRevHome : System :=
  { (m2_feed_reverse (initSystem false)).1 with home_pin_low := true }

end ESP32A

namespace ESP32B

/- ===== Helper lemmas ===== -/

/-- Model of `STEPS_PER_IN` as a reduced rational (about 1089.5 steps per inch). -/
theorem SPI_eq : STEPS_PER_IN = 85117432 / 78125 := by
  norm_num [STEPS_PER_IN, STEPS_PER_MM, CIRC_MM, PITCH_MM, TEETH, CALIBRATION_SCALE,
    STEPS_PER_REV]

/-- Model of `POSITION_TOLERANCE_IN` as a reduced rational. -/
theorem TOL_eq : POSITION_TOLERANCE_IN = 1 / 127 := by
  norm_num [POSITION_TOLERANCE_IN]

/-- Model of `IN_PER_COUNT` as a reduced rational. -/
theorem IPC_eq : IN_PER_COUNT = 78125 / 21279358 := by
  norm_num [IN_PER_COUNT, MM_PER_COUNT, CIRC_MM, PITCH_MM, TEETH, COUNTS_PER_REV,
    ENCODER_PPR, CALIBRATION_SCALE]

/-- The step tolerance used by the ISR evaluates to 8 steps. -/
theorem tolSteps_eq : toleranceSteps = 8 := by
  rw [toleranceSteps, i32trunc, SPI_eq, TOL_eq]
  norm_num

theorem STEPS_PER_IN_pos : (0 : ℚ) < STEPS_PER_IN := by
  rw [SPI_eq]; norm_num

/-- An error strictly above the position tolerance converts to a strictly
positive step count. -/
theorem i32trunc_err_pos {e : ℚ} (h : POSITION_TOLERANCE_IN < e) :
    0 < i32trunc (e * STEPS_PER_IN) := by
  have hs := STEPS_PER_IN_pos
  have h1 : (1 : ℚ) ≤ e * STEPS_PER_IN := by
    have h2 : POSITION_TOLERANCE_IN * STEPS_PER_IN < e * STEPS_PER_IN :=
      mul_lt_mul_of_pos_right h hs
    have h3 : (1 : ℚ) ≤ POSITION_TOLERANCE_IN * STEPS_PER_IN := by
      rw [TOL_eq, SPI_eq]; norm_num
    linarith
  have h0 : (0 : ℚ) ≤ e * STEPS_PER_IN := by linarith
  have h4 : (1 : Int) ≤ ⌊e * STEPS_PER_IN⌋ := Int.le_floor.mpr (by exact_mod_cast h1)
  unfold i32trunc
  rw [if_pos h0]
  omega

/-- An error strictly below the negated position tolerance converts to a
strictly negative step count. -/
theorem i32trunc_err_neg {e : ℚ} (h : e < -POSITION_TOLERANCE_IN) :
    i32trunc (e * STEPS_PER_IN) < 0 := by
  have hs := STEPS_PER_IN_pos
  have h1 : e * STEPS_PER_IN ≤ -1 := by
    have h2 : e * STEPS_PER_IN < -POSITION_TOLERANCE_IN * STEPS_PER_IN :=
      mul_lt_mul_of_pos_right h hs
    have h3 : -POSITION_TOLERANCE_IN * STEPS_PER_IN ≤ -1 := by
      rw [TOL_eq, SPI_eq]; norm_num
    linarith
  have h0 : ¬ (0 : ℚ) ≤ e * STEPS_PER_IN := by
    intro hcon
    linarith
  have h4 : ⌈e * STEPS_PER_IN⌉ ≤ -1 := Int.ceil_le.mpr (by exact_mod_cast h1)
  unfold i32trunc
  rw [if_neg h0]
  omega

/-- Model of `sMoving` evaluates to its literal form. -/
theorem sMoving_eq : sMoving = sMovingLit := by
  rw [sMoving, sInit, gotoPosition]
  norm_num [initSystem, syncMotorStepsWithEncoder, updateTimerFrequency, i32trunc,
    SPI_eq, TOL_eq, DEFAULT_VELOCITY_IPS, sMovingLit]
  refine ⟨by decide, ?_, by decide⟩
  rfl

end ESP32B

namespace ESP32B

/- ===== Claim theorems for the backstop firmware ===== -/

/-- C1: a timer tick with `in_motion` true either finishes the move (error
within the tolerance in steps: clears `in_motion`, drives the step output
low, raises the completion flag, leaves `current_steps` unchanged) or
advances the two-phase pulse state machine (output high on one tick, low on
the next, with `current_steps` moved by exactly 1 in the commanded direction
on pulse completion); a tick with `in_motion` false changes nothing. -/
theorem c1_onTimer_step_machine (s : System) :
    (s.motor.in_motion = false → onTimer s = s) ∧
    (s.motor.in_motion = true →
      |s.motor.target_steps - s.motor.current_steps| ≤ toleranceSteps →
      onTimer s =
        { s with motor := { s.motor with in_motion := false, motion_complete_flag := true },
                 step_pin := false }) ∧
    (s.motor.in_motion = true →
      toleranceSteps < |s.motor.target_steps - s.motor.current_steps| →
      s.motor.step_pin_state = false →
      onTimer s =
        { s with motor := { s.motor with step_pin_state := true, pulse_counter := 0 },
                 step_pin := true }) ∧
    (s.motor.in_motion = true →
      toleranceSteps < |s.motor.target_steps - s.motor.current_steps| →
      s.motor.step_pin_state = true →
      s.motor.pulse_counter + 1 < 2 ^ 32 →
      (onTimer s).step_pin = false ∧
      (onTimer s).motor.step_pin_state = false ∧
      (onTimer s).motor.current_steps =
        s.motor.current_steps + (if s.motor.direction then 1 else -1) ∧
      (onTimer s).motor.in_motion = true ∧
      (onTimer s).motor.target_steps = s.motor.target_steps) := by
  refine ⟨?_, ?_, ?_, ?_⟩
  · intro h
    simp [onTimer, h]
  · intro h htol
    simp [onTimer, h, htol]
  · intro h htol hlow
    rw [onTimer]
    simp [h, hlow, not_le.mpr htol]
  · intro h htol hhigh hnw
    have hnw2 : s.motor.pulse_counter + 1 < 4294967296 := by simpa using hnw
    have hge : 1 ≤ (s.motor.pulse_counter + 1) % 4294967296 := by
      rw [Nat.mod_eq_of_lt hnw2]; omega
    rw [onTimer]
    simp [h, hhigh, not_le.mpr htol, hge]

/-- Witness for `c1_onTimer_step_machine`: the four branches evaluated on
concrete states. -/
theorem c1_onTimer_step_machine_witness :
    (onTimer sInit = sInit) ∧
    (onTimer sRunNear =
      { sRunNear with
          motor := { sRunNear.motor with in_motion := false, motion_complete_flag := true },
          step_pin := false }) ∧
    (onTimer sRun =
      { sRun with
          motor := { sRun.motor with step_pin_state := true, pulse_counter := 0 },
          step_pin := true }) ∧
    ((onTimer sRunHigh).motor.current_steps = sRunHigh.motor.current_steps + 1 ∧
      (onTimer sRunHigh).step_pin = false) := by
  have htol : toleranceSteps = 8 := tolSteps_eq
  refine ⟨?_, ?_, ?_, ?_, ?_⟩
  · exact (c1_onTimer_step_machine sInit).1 rfl
  · exact (c1_onTimer_step_machine sRunNear).2.1 rfl (by rw [htol]; decide)
  · exact (c1_onTimer_step_machine sRun).2.2.1 rfl (by rw [htol]; decide) rfl
  · have h := (c1_onTimer_step_machine sRunHigh).2.2.2 rfl (by rw [htol]; decide)
      rfl (by decide)
    have hdir : sRunHigh.motor.direction = true := rfl
    have h1 := h.2.2.1
    rw [hdir] at h1
    simpa using h1
  · exact ((c1_onTimer_step_machine sRunHigh).2.2.2 rfl (by rw [htol]; decide)
      rfl (by decide)).1

/-- Running an edge list consistent with a single rotation direction adds
`d` to the counter for each genuine step and 0 for each bounce; shared core
of the two directional instances. -/
theorem runEdges_counts (next : Fin 4 → Fin 4) (d : Int)
    (hstep : ∀ p, quad_table (quadIdx p (next p)) = d)
    (hbounce : ∀ p, quad_table (quadIdx p p) = 0)
    (hne : ∀ p, next p ≠ p) :
    ∀ (l : List (Bool × Bool)) (s : System),
      consistentWith next s.encoder.last_ab l = true →
      (runEdges s l).encoder.counts =
        s.encoder.counts + d * (advanceCount next s.encoder.last_ab l : Int) := by
  intro l
  induction l with
  | nil => intro s hc; simp [runEdges, advanceCount]
  | cons e t ih =>
    obtain ⟨a, b⟩ := e
    intro s hc
    simp only [consistentWith] at hc
    by_cases hab : abCode a b = s.encoder.last_ab ∨ abCode a b = next s.encoder.last_ab
    · have ht : consistentWith next (abCode a b) t = true := by
        rw [if_pos hab] at hc; exact hc
      have hlast : (handleEncoderChange a b s).encoder.last_ab = abCode a b := rfl
      have hrec := ih (handleEncoderChange a b s) (by rw [hlast]; exact ht)
      rw [runEdges, hrec, hlast]
      have hcounts : (handleEncoderChange a b s).encoder.counts =
          s.encoder.counts + quad_table (quadIdx s.encoder.last_ab (abCode a b)) := rfl
      rw [hcounts, advanceCount]
      rcases hab with hb | hstep2
      · have hno : ¬ abCode a b = next s.encoder.last_ab := by
          rw [hb]; intro hcon; exact hne s.encoder.last_ab hcon.symm
        rw [if_neg hno, hb, hbounce]
        push_cast
        ring
      · rw [if_pos hstep2, hstep2, hstep]
        push_cast
        ring
    · rw [if_neg hab] at hc
      exact absurd hc (by simp)

/-- C2: each encoder edge adds the table entry indexed by
`(last_ab << 2) | curr` to the raw count and latches the new 2-bit state;
every table entry lies in `{-1, 0, 1}`; impossible transitions (both
channels changing at once) and bounces (state repeated) map to 0; along one
rotation direction each genuine step is `+1`, along the other `-1`, so any
edge sequence consistent with a single direction moves the count
monotonically by the number of genuine steps taken. -/
theorem c2_quad_table_decode :
    (∀ (s : System) (a b : Bool),
      (handleEncoderChange a b s).encoder.counts =
        s.encoder.counts + quad_table (quadIdx s.encoder.last_ab (abCode a b)) ∧
      (handleEncoderChange a b s).encoder.last_ab = abCode a b) ∧
    (∀ i : Fin 16, quad_table i = -1 ∨ quad_table i = 0 ∨ quad_table i = 1) ∧
    (∀ p : Fin 4, quad_table (quadIdx p (flipBoth p)) = 0) ∧
    (∀ p : Fin 4, quad_table (quadIdx p p) = 0) ∧
    (∀ p : Fin 4,
      quad_table (quadIdx p (fwdNext p)) = 1 ∧ quad_table (quadIdx p (revNext p)) = -1) ∧
    (∀ (s : System) (l : List (Bool × Bool)),
      consistentWith fwdNext s.encoder.last_ab l = true →
      (runEdges s l).encoder.counts =
        s.encoder.counts + (advanceCount fwdNext s.encoder.last_ab l : Int)) ∧
    (∀ (s : System) (l : List (Bool × Bool)),
      consistentWith revNext s.encoder.last_ab l = true →
      (runEdges s l).encoder.counts =
        s.encoder.counts - (advanceCount revNext s.encoder.last_ab l : Int)) := by
  refine ⟨fun s a b => ⟨rfl, rfl⟩, by decide, by decide, by decide, by decide, ?_, ?_⟩
  · intro s l hc
    have h := runEdges_counts fwdNext 1 (by decide) (by decide) (by decide) l s hc
    omega
  · intro s l hc
    have h := runEdges_counts revNext (-1) (by decide) (by decide) (by decide) l s hc
    omega

/-- Witness for `c2_quad_table_decode`: a full forward Gray cycle adds 4,
a full reverse Gray cycle subtracts 4, starting from the initial state. -/
theorem c2_quad_table_decode_witness :
    (runEdges sInit [(true, false), (true, true), (false, true), (false, false)]).encoder.counts
        = sInit.encoder.counts + 4 ∧
    (runEdges sInit [(false, true), (true, true), (true, false), (false, false)]).encoder.counts
        = sInit.encoder.counts - 4 := by
  constructor
  · have h := c2_quad_table_decode.2.2.2.2.2.1 sInit
      [(true, false), (true, true), (false, true), (false, false)] (by decide)
    have ha : (advanceCount fwdNext sInit.encoder.last_ab
        [(true, false), (true, true), (false, true), (false, false)] : Int) = 4 := by decide
    rw [ha] at h
    exact h
  · have h := c2_quad_table_decode.2.2.2.2.2.2 sInit
      [(false, true), (true, true), (true, false), (false, false)] (by decide)
    have ha : (advanceCount revNext sInit.encoder.last_ab
        [(false, true), (true, true), (true, false), (false, false)] : Int) = 4 := by decide
    rw [ha] at h
    exact h

/-- C3: when the open-loop move completes with the encoder present and
closed-loop correction enabled, and the encoder-measured error `e` satisfies
`tolerance < |e| ≤ max_error`, the correction pass (run after the mandatory
settle delay) re-synchronizes `current_steps` to the encoder position, sets
`target_steps = current_steps + (int)(e * STEPS_PER_IN)`, takes the
direction from the sign of `e`, programs the correction velocity
`CORRECTION_VELOCITY_SCALE * base`, floored at `MIN_CORRECTION_VEL_IPS`,
and re-enables motion. -/
theorem c3_closedLoopCorrection_bounded (s : System)
    (hdet : s.encoder.detected = true)
    (_hen : s.motor.closed_loop_enabled = true)
    (htol : POSITION_TOLERANCE_IN < |s.motor.target_position_in - s.encoder.position_in|)
    (hmax : |s.motor.target_position_in - s.encoder.position_in| ≤ MAX_POSITION_ERROR_IN) :
    (closedLoopCorrection s).1.motor.current_steps =
        i32trunc (s.encoder.position_in * STEPS_PER_IN) ∧
    (closedLoopCorrection s).1.motor.target_steps =
        (closedLoopCorrection s).1.motor.current_steps +
          i32trunc ((s.motor.target_position_in - s.encoder.position_in) * STEPS_PER_IN) ∧
    ((closedLoopCorrection s).1.motor.direction = true ↔
        0 < s.motor.target_position_in - s.encoder.position_in) ∧
    (closedLoopCorrection s).1.motor.velocity_ips =
        max (s.motor.base_velocity_ips * CORRECTION_VELOCITY_SCALE) MIN_CORRECTION_VEL_IPS ∧
    (closedLoopCorrection s).1.motor.in_motion = true ∧
    (closedLoopCorrection s).2 =
        [Msg.correcting (s.motor.target_position_in - s.encoder.position_in)
          s.motor.target_position_in] := by
  have hnt : ¬ |s.motor.target_position_in - s.encoder.position_in| ≤ POSITION_TOLERANCE_IN :=
    not_le.mpr htol
  have hnm : ¬ |s.motor.target_position_in - s.encoder.position_in| > MAX_POSITION_ERROR_IN :=
    not_lt.mpr hmax
  have hvel : (if s.motor.base_velocity_ips * CORRECTION_VELOCITY_SCALE <
        MIN_CORRECTION_VEL_IPS then MIN_CORRECTION_VEL_IPS
      else s.motor.base_velocity_ips * CORRECTION_VELOCITY_SCALE) =
      max (s.motor.base_velocity_ips * CORRECTION_VELOCITY_SCALE) MIN_CORRECTION_VEL_IPS := by
    rcases lt_or_le (s.motor.base_velocity_ips * CORRECTION_VELOCITY_SCALE)
        MIN_CORRECTION_VEL_IPS with hlt | hle
    · rw [if_pos hlt, max_eq_right hlt.le]
    · rw [if_neg (not_lt.mpr hle), max_eq_left hle]
  have htolpos : (0 : ℚ) < POSITION_TOLERANCE_IN := by rw [TOL_eq]; norm_num
  rcases lt_abs.mp htol with he | he
  · have htr : 0 < i32trunc ((s.motor.target_position_in - s.encoder.position_in) *
        STEPS_PER_IN) := i32trunc_err_pos he
    rw [closedLoopCorrection]
    rw [if_neg hnt, if_neg hnm]
    simp only [syncMotorStepsWithEncoder, hdet, Bool.not_true, Bool.false_eq_true,
      not_false_eq_true, if_neg, ite_false, updateTimerFrequency]
    simp [htr, hvel]
    linarith
  · have he2 : s.motor.target_position_in - s.encoder.position_in < -POSITION_TOLERANCE_IN := by
      linarith
    have htr : i32trunc ((s.motor.target_position_in - s.encoder.position_in) *
        STEPS_PER_IN) < 0 := i32trunc_err_neg he2
    rw [closedLoopCorrection]
    rw [if_neg hnt, if_neg hnm]
    simp only [syncMotorStepsWithEncoder, hdet, Bool.not_true, Bool.false_eq_true,
      not_false_eq_true, if_neg, ite_false, updateTimerFrequency]
    simp [hvel, lt_asymm htr]
    linarith

/-- Witness for `c3_closedLoopCorrection_bounded`: a completed move whose
encoder error is 0.1 in restarts motion forward. -/
theorem c3_closedLoopCorrection_bounded_witness :
    (closedLoopCorrection sErrSmall).1.motor.in_motion = true ∧
    (closedLoopCorrection sErrSmall).1.motor.direction = true := by
  have habs : |sErrSmall.motor.target_position_in - sErrSmall.encoder.position_in|
      = 1 / 10 := by
    have h1 : sErrSmall.motor.target_position_in - sErrSmall.encoder.position_in
        = 1 / 10 := by
      norm_num [sErrSmall, sInit, initSystem]
    rw [h1, abs_of_pos (show (0 : ℚ) < 1 / 10 by norm_num)]
  have h := c3_closedLoopCorrection_bounded sErrSmall rfl rfl
    (by rw [habs, TOL_eq]; norm_num)
    (by rw [habs, MAX_POSITION_ERROR_IN]; norm_num)
  refine ⟨h.2.2.2.2.1, ?_⟩
  exact h.2.2.1.mpr (by norm_num [sErrSmall, sInit, initSystem])

/-- C4: an encoder-measured error exactly at `MAX_POSITION_ERROR_IN` does
not alarm (the correction pass proceeds and re-enables motion), while an
error strictly beyond it emits the alarm response followed by the stop
response, disables motion, performs no correction move, and leaves the whole
state (in particular `target_position_in`) otherwise unchanged. -/
theorem c4_alarm_boundary (s : System) :
    (|s.motor.target_position_in - s.encoder.position_in| = MAX_POSITION_ERROR_IN →
      (closedLoopCorrection s).1.motor.in_motion = true ∧
      (closedLoopCorrection s).2 =
        [Msg.correcting (s.motor.target_position_in - s.encoder.position_in)
          s.motor.target_position_in]) ∧
    (MAX_POSITION_ERROR_IN < |s.motor.target_position_in - s.encoder.position_in| →
      (closedLoopCorrection s).1 =
        { s with motor := { s.motor with in_motion := false } } ∧
      (closedLoopCorrection s).2 =
        [Msg.errorPositionTooLarge (s.motor.target_position_in - s.encoder.position_in)
            s.motor.target_position_in s.encoder.position_in,
          Msg.stoppedMsg ((s.motor.current_steps : ℚ) / STEPS_PER_IN)
            (if s.encoder.detected then some s.encoder.position_in else none)]) := by
  constructor
  · intro heq
    have hnt : ¬ |s.motor.target_position_in - s.encoder.position_in| ≤
        POSITION_TOLERANCE_IN := by
      rw [heq]
      norm_num [TOL_eq, MAX_POSITION_ERROR_IN]
    have hnm : ¬ |s.motor.target_position_in - s.encoder.position_in| >
        MAX_POSITION_ERROR_IN := by
      rw [heq]
      exact lt_irrefl _
    rw [closedLoopCorrection]
    rw [if_neg hnt, if_neg hnm]
    constructor
    all_goals
      simp only [syncMotorStepsWithEncoder, updateTimerFrequency]
  · intro hgt
    have hnt : ¬ |s.motor.target_position_in - s.encoder.position_in| ≤
        POSITION_TOLERANCE_IN := by
      have : POSITION_TOLERANCE_IN < MAX_POSITION_ERROR_IN := by
        rw [TOL_eq]; norm_num [MAX_POSITION_ERROR_IN]
      push_neg
      linarith
    rw [closedLoopCorrection]
    rw [if_neg hnt, if_pos hgt]
    exact ⟨rfl, rfl⟩

/-- Witness for `c4_alarm_boundary`: an error of exactly 0.200 in keeps the
corrector alive, an error of 0.300 in alarms and disables motion. -/
theorem c4_alarm_boundary_witness :
    (closedLoopCorrection sErrAtMax).1.motor.in_motion = true ∧
    (closedLoopCorrection sErrOverMax).1 =
      { sErrOverMax with motor := { sErrOverMax.motor with in_motion := false } } := by
  have habs1 : |sErrAtMax.motor.target_position_in - sErrAtMax.encoder.position_in|
      = MAX_POSITION_ERROR_IN := by
    have h1 : sErrAtMax.motor.target_position_in - sErrAtMax.encoder.position_in
        = 2 / 10 := by
      norm_num [sErrAtMax, sInit, initSystem]
    rw [h1, abs_of_pos (show (0 : ℚ) < 2 / 10 by norm_num), MAX_POSITION_ERROR_IN]
  have habs2 : |sErrOverMax.motor.target_position_in - sErrOverMax.encoder.position_in|
      = 3 / 10 := by
    have h1 : sErrOverMax.motor.target_position_in - sErrOverMax.encoder.position_in
        = 3 / 10 := by
      norm_num [sErrOverMax, sInit, initSystem]
    rw [h1, abs_of_pos (show (0 : ℚ) < 3 / 10 by norm_num)]
  constructor
  · exact ((c4_alarm_boundary sErrAtMax).1 habs1).1
  · exact ((c4_alarm_boundary sErrOverMax).2
      (by rw [habs2, MAX_POSITION_ERROR_IN]; norm_num)).1

/-- C5 counterexample: the claimed invariant "in every reachable state,
`in_motion = false` implies the step output is low" is false.  A `g1` move
followed by one timer tick leaves the step output HIGH mid-pulse; a `stop`
command arriving at that moment clears `in_motion` but `stop` never writes
the step pin, so the reachable state `sStopMid` has `in_motion = false` with
the step output still HIGH. -/
theorem c5_counterexample_stop_mid_pulse :
    Reachable sStopMid ∧ sStopMid.motor.in_motion = false ∧ sStopMid.step_pin = true := by
  refine ⟨Reachable.cmdStop (Reachable.tick (Reachable.cmdGoto 1 (Reachable.init false false))),
    ?_, ?_⟩
  all_goals
    rw [sStopMid, sPulseHigh, sMoving_eq]
    simp [onTimer, stop, sMovingLit, tolSteps_eq]

/-- C5 (amended): a tick with `in_motion` false changes no motor state and
produces no pulses; a completing tick drives the step output low while
clearing `in_motion`; the `stop` command clears `in_motion` but leaves the
step output line at its previous level, so after `stop` the line is low only
if it was already low. -/
theorem c5_amended_idle_pin_behavior :
    (∀ s : System, s.motor.in_motion = false → onTimer s = s) ∧
    (∀ s : System, s.motor.in_motion = true →
      |s.motor.target_steps - s.motor.current_steps| ≤ toleranceSteps →
      (onTimer s).step_pin = false ∧ (onTimer s).motor.in_motion = false) ∧
    (∀ s : System,
      (stop s).1.motor.in_motion = false ∧ (stop s).1.step_pin = s.step_pin) := by
  refine ⟨?_, ?_, ?_⟩
  · intro s h
    simp [onTimer, h]
  · intro s h htol
    simp [onTimer, h, htol]
  · intro s
    exact ⟨rfl, rfl⟩

/-- Witness for `c5_amended_idle_pin_behavior` on concrete states. -/
theorem c5_amended_idle_pin_behavior_witness :
    onTimer sInit = sInit ∧
    ((onTimer sRunNear).step_pin = false ∧ (onTimer sRunNear).motor.in_motion = false) ∧
    ((stop sRunHigh).1.motor.in_motion = false ∧
      (stop sRunHigh).1.step_pin = sRunHigh.step_pin) :=
  ⟨c5_amended_idle_pin_behavior.1 sInit rfl,
    c5_amended_idle_pin_behavior.2.1 sRunNear rfl (by rw [tolSteps_eq]; decide),
    c5_amended_idle_pin_behavior.2.2 sRunHigh⟩

/-- C6: evaluation of `home` at a state whose encoder reads 1.000 inch.
The command zeroes the encoder, target and motion flag, and answers
`ENCODER_RESET` then `HOMED` — but `current_steps` ends at 1089, not 0:
`home()` zeroes it, then `syncMotorStepsWithEncoder()` overwrites it with
the stale pre-reset encoder position, and `resetEncoder()` only runs
afterwards. -/
theorem c6_home_leaves_stale_steps :
    (home sEx6).1.motor.current_steps = 1089 ∧
    (home sEx6).1.motor.current_steps ≠ 0 ∧
    (home sEx6).1.encoder.counts = 0 ∧
    (home sEx6).1.encoder.position_in = 0 ∧
    (home sEx6).1.motor.target_steps = 0 ∧
    (home sEx6).1.motor.target_position_in = 0 ∧
    (home sEx6).1.motor.in_motion = false ∧
    (home sEx6).2 = [Msg.encoderReset, Msg.homed] := by
  norm_num [home, syncMotorStepsWithEncoder, resetEncoder, resetEncoderCount,
    sEx6, sInit, initSystem, i32trunc, SPI_eq]

end ESP32B

namespace ESP32A

/- ===== Helper lemmas ===== -/

/-- A frequency already inside `[MIN_FREQ_HZ, MAX_FREQ_HZ]` passes the PWM
clamp unchanged. -/
theorem clampFreq_of_inrange {f : ℚ} (h1 : MIN_FREQ_HZ ≤ f) (h2 : f ≤ MAX_FREQ_HZ) :
    clampFreq f = f := by
  rw [clampFreq, if_neg (not_lt.mpr h1), if_neg (not_lt.mpr h2)]

/-- No command handler writes the home-sensor input level. -/
theorem processCmd_home_pin (c : Cmd) (s : System) :
    ((processCmd c s).1).home_pin_low = s.home_pin_low := by
  cases c <;>
    simp [processCmd, queryStatus, m1_set_rpm, m1_stop, m2_feed_forward,
      m2_feed_reverse, m2_stop, m2_set_velocity, m1_pwm_set_frequency,
      m1_pwm_enable, m2_pwm_set_frequency, m2_pwm_enable, is_m2_home_active] <;>
    split_ifs <;>
    rfl

/-- After the reverse-feed home check, the forbidden configuration (moving,
reverse, home asserted) cannot hold. -/
theorem m2_check_home_stop_post (s : System) :
    ¬ (((m2_check_home_stop s).1).m2.in_motion = true ∧
       ((m2_check_home_stop s).1).m2.direction_fwd = false ∧
       ((m2_check_home_stop s).1).home_pin_low = true) := by
  rw [m2_check_home_stop]
  by_cases hc : (s.m2.in_motion ∧ ¬ s.m2.direction_fwd ∧ is_m2_home_active s)
  · rw [if_pos hc]
    simp [m2_stop, m2_pwm_enable]
  · rw [if_neg hc]
    intro hcon
    have hmv : s.m2.in_motion = true := hcon.1
    have hdir : s.m2.direction_fwd = false := hcon.2.1
    have hhome : s.home_pin_low = true := hcon.2.2
    exact hc ⟨hmv, by simp [hdir], by simp [is_m2_home_active, hhome]⟩

/- ===== Claim theorems for the axis12 firmware ===== -/

/-- C7: an accepted `1r` command with rpm in `[100, 6000]` stores and
programs the pulse frequency `rpm * M1_PULSES_PER_REV / 60` clamped into
`[MIN_FREQ_HZ, MAX_FREQ_HZ]`, enables the pulse train, and reports the
accepted rpm together with the clamped frequency. -/
theorem c7_m1_set_rpm_frequency (s : System) (rpm : Nat)
    (h1 : 100 ≤ rpm) (h2 : rpm ≤ 6000) :
    (m1_set_rpm rpm s).1.m1.freq_hz =
        min ((rpm : ℚ) * M1_PULSES_PER_REV / 60) MAX_FREQ_HZ ∧
    MIN_FREQ_HZ ≤ (m1_set_rpm rpm s).1.m1.freq_hz ∧
    (m1_set_rpm rpm s).1.m1.freq_hz ≤ MAX_FREQ_HZ ∧
    (m1_set_rpm rpm s).1.m1_pwm_freq =
        (i32trunc ((m1_set_rpm rpm s).1.m1.freq_hz)).toNat ∧
    (m1_set_rpm rpm s).1.m1_pwm_enabled = true ∧
    (m1_set_rpm rpm s).1.m1.running = true ∧
    (m1_set_rpm rpm s).1.m1.rpm = rpm ∧
    (m1_set_rpm rpm s).2 = [Msg.m1Run rpm ((m1_set_rpm rpm s).1.m1.freq_hz)] := by
  have hc : ¬ (rpm < 100 ∨ rpm > 6000) := by omega
  have h100 : (100 : ℚ) ≤ (rpm : ℚ) := by exact_mod_cast h1
  have hge1 : MIN_FREQ_HZ ≤ (rpm : ℚ) * M1_PULSES_PER_REV / 60 := by
    rw [MIN_FREQ_HZ, M1_PULSES_PER_REV]
    linarith
  have hminmax : MIN_FREQ_HZ ≤ MAX_FREQ_HZ := by
    rw [MIN_FREQ_HZ, MAX_FREQ_HZ]; norm_num
  by_cases hA : (rpm : ℚ) * M1_PULSES_PER_REV / 60 > MAX_FREQ_HZ
  · have hmin : min ((rpm : ℚ) * M1_PULSES_PER_REV / 60) MAX_FREQ_HZ = MAX_FREQ_HZ :=
      min_eq_right hA.le
    have hclamp : clampFreq MAX_FREQ_HZ = MAX_FREQ_HZ :=
      clampFreq_of_inrange hminmax le_rfl
    simp [m1_set_rpm, hc, hA, m1_pwm_set_frequency, m1_pwm_enable, hclamp, hmin, hminmax]
  · have hle : (rpm : ℚ) * M1_PULSES_PER_REV / 60 ≤ MAX_FREQ_HZ := not_lt.mp hA
    have hmin : min ((rpm : ℚ) * M1_PULSES_PER_REV / 60) MAX_FREQ_HZ =
        (rpm : ℚ) * M1_PULSES_PER_REV / 60 := min_eq_left hle
    have hclamp : clampFreq ((rpm : ℚ) * M1_PULSES_PER_REV / 60) =
        (rpm : ℚ) * M1_PULSES_PER_REV / 60 := clampFreq_of_inrange hge1 hle
    simp [m1_set_rpm, hc, hA, m1_pwm_set_frequency, m1_pwm_enable, hclamp, hmin,
      hge1, hle]

/-- Witness for `c7_m1_set_rpm_frequency`: `1r3500` reports rpm 3500 with
the frequency clamped to `MAX_FREQ_HZ` (3500 * 22333 / 60 exceeds it). -/
theorem c7_m1_set_rpm_frequency_witness :
    (m1_set_rpm 3500 (initSystem false)).1.m1.freq_hz = 375000 ∧
    (m1_set_rpm 3500 (initSystem false)).1.m1.running = true ∧
    (m1_set_rpm 3500 (initSystem false)).2 = [Msg.m1Run 3500 375000] := by
  have h := c7_m1_set_rpm_frequency (initSystem false) 3500 (by norm_num) (by norm_num)
  have hmin : min (((3500 : Nat) : ℚ) * M1_PULSES_PER_REV / 60) MAX_FREQ_HZ = 375000 := by
    rw [M1_PULSES_PER_REV, MAX_FREQ_HZ]
    rw [min_eq_right (by push_cast; norm_num)]
  have hfreq := h.1
  rw [hmin] at hfreq
  refine ⟨hfreq, h.2.2.2.2.2.1, ?_⟩
  have hmsg := h.2.2.2.2.2.2.2
  rw [hfreq] at hmsg
  exact hmsg

/-- C8: speed arguments exactly at the documented bounds are accepted
(M1 rpm 100 and 6000, M2 velocity 1.0 and 400.0 mm/s), while arguments one
unit beyond either bound are answered with the range error and leave the
entire state unchanged: no field is stored, no frequency programmed, no
motion started or stopped. -/
theorem c8_speed_range_boundaries (s : System) :
    ((m1_set_rpm 100 s).1.m1.running = true ∧
      (m1_set_rpm 100 s).1.m1.rpm = 100 ∧
      (m1_set_rpm 100 s).2 =
        [Msg.m1Run 100 (((100 : Nat) : ℚ) * M1_PULSES_PER_REV / 60)]) ∧
    ((m1_set_rpm 6000 s).1.m1.running = true ∧
      (m1_set_rpm 6000 s).1.m1.rpm = 6000 ∧
      (m1_set_rpm 6000 s).2 = [Msg.m1Run 6000 MAX_FREQ_HZ]) ∧
    m1_set_rpm 99 s = (s, [Msg.errorM1RpmRange]) ∧
    m1_set_rpm 6001 s = (s, [Msg.errorM1RpmRange]) ∧
    ((m2_set_velocity 1 s).1.m2.vel_mm_s = 1 ∧
      (m2_set_velocity 1 s).2 = [Msg.m2VelSet 1]) ∧
    ((m2_set_velocity 400 s).1.m2.vel_mm_s = 400 ∧
      (m2_set_velocity 400 s).2 = [Msg.m2VelSet 400]) ∧
    m2_set_velocity 0 s = (s, [Msg.errorM2VelRange]) ∧
    m2_set_velocity 401 s = (s, [Msg.errorM2VelRange]) := by
  refine ⟨?_, ?_, ?_, ?_, ?_, ?_, ?_, ?_⟩
  · have hc : ¬ ((100 : Nat) < 100 ∨ (100 : Nat) > 6000) := by norm_num
    have hA : ¬ ((100 : ℚ) * M1_PULSES_PER_REV / 60 > MAX_FREQ_HZ) := by
      rw [M1_PULSES_PER_REV, MAX_FREQ_HZ]
      norm_num
    simp [m1_set_rpm, hc, hA, m1_pwm_set_frequency, m1_pwm_enable]
  · have hc : ¬ ((6000 : Nat) < 100 ∨ (6000 : Nat) > 6000) := by norm_num
    have hA : (6000 : ℚ) * M1_PULSES_PER_REV / 60 > MAX_FREQ_HZ := by
      rw [M1_PULSES_PER_REV, MAX_FREQ_HZ]
      norm_num
    simp [m1_set_rpm, hc, hA, m1_pwm_set_frequency, m1_pwm_enable]
  · have hc : ((99 : Nat) < 100 ∨ (99 : Nat) > 6000) := by norm_num
    simp [m1_set_rpm, hc]
  · have hc : ((6001 : Nat) < 100 ∨ (6001 : Nat) > 6000) := by norm_num
    simp [m1_set_rpm, hc]
  · have hc : ¬ ((1 : ℚ) < 1 ∨ (1 : ℚ) > 400) := by norm_num
    simp only [m2_set_velocity, if_neg hc]
    constructor
    · split_ifs <;> rfl
    · trivial
  · have hc : ¬ ((400 : ℚ) < 1 ∨ (400 : ℚ) > 400) := by norm_num
    simp only [m2_set_velocity, if_neg hc]
    constructor
    · split_ifs <;> rfl
    · trivial
  · have hc : ((0 : ℚ) < 1 ∨ (0 : ℚ) > 400) := by norm_num
    simp [m2_set_velocity, hc]
  · have hc : ((401 : ℚ) < 1 ∨ (401 : ℚ) > 400) := by norm_num
    norm_num [m2_set_velocity, hc]

/-- C9: a `2b` reverse-feed command arriving while the home/limit sensor is
asserted is answered by the single `ERROR M2_HOME_ACTIVE` line and leaves
the state completely unchanged: the pulse engine is not enabled and
`in_motion`, direction, velocity and frequency keep their prior values. -/
theorem c9_m2_reverse_rejected_when_home (s : System) (h : s.home_pin_low = true) :
    m2_feed_reverse s = (s, [Msg.errorM2HomeActive]) ∧
    (m2_feed_reverse s).1.m2_pwm_enabled = s.m2_pwm_enabled ∧
    (m2_feed_reverse s).1.m2.in_motion = s.m2.in_motion := by
  have h1 : m2_feed_reverse s = (s, [Msg.errorM2HomeActive]) := by
    rw [m2_feed_reverse,
      if_pos (show is_m2_home_active s = true by rw [is_m2_home_active]; exact h)]
  exact ⟨h1, by rw [h1], by rw [h1]⟩

/-- Witness for `c9_m2_reverse_rejected_when_home`: reverse feed from the
idle state with the sensor asserted. -/
theorem c9_m2_reverse_rejected_when_home_witness :
    m2_feed_reverse (initSystem true) = (initSystem true, [Msg.errorM2HomeActive]) ∧
    (m2_feed_reverse (initSystem true)).1.m2.in_motion = false := by
  have h := c9_m2_reverse_rejected_when_home (initSystem true) rfl
  exact ⟨h.1, by rw [h.1]; rfl⟩

/-- C10: after any single iteration of `loop` the fixture motor is never
simultaneously in motion, feeding in reverse, and seeing its home sensor
asserted (the iteration leaves the sensor input unchanged); and if a
reverse feed is in flight when the sensor asserts, the next iteration with
no pending command stops the motor: pulse output disabled, `in_motion`
cleared, and the stopped response emitted. -/
theorem c10_loop_reverse_home_stop (cmd : Option Cmd) (now : Nat) (s : System) :
    (¬ ((loopIter cmd now s).1.m2.in_motion = true ∧
        (loopIter cmd now s).1.m2.direction_fwd = false ∧
        (loopIter cmd now s).1.home_pin_low = true)) ∧
    (loopIter cmd now s).1.home_pin_low = s.home_pin_low ∧
    (s.m2.in_motion = true → s.m2.direction_fwd = false → s.home_pin_low = true →
      (loopIter none now s).1.m2.in_motion = false ∧
      (loopIter none now s).1.m2_pwm_enabled = false ∧
      (loopIter none now s).2 = [Msg.m2Stopped]) := by
  have hhome : ∀ t : System, (m2_check_home_stop t).1.home_pin_low = t.home_pin_low := by
    intro t
    rw [m2_check_home_stop]
    split_ifs <;> rfl
  refine ⟨?_, ?_, ?_⟩
  · rcases cmd with _ | c
    · simp only [loopIter.eq_def]
      split_ifs with hh
      · intro hcon
        exact m2_check_home_stop_post s ⟨hcon.1, hcon.2.1, hcon.2.2⟩
      · intro hcon
        exact m2_check_home_stop_post s ⟨hcon.1, hcon.2.1, hcon.2.2⟩
    · simp only [loopIter.eq_def]
      split_ifs with hh
      · intro hcon
        exact m2_check_home_stop_post (processCmd c s).1 ⟨hcon.1, hcon.2.1, hcon.2.2⟩
      · intro hcon
        exact m2_check_home_stop_post (processCmd c s).1 ⟨hcon.1, hcon.2.1, hcon.2.2⟩
  · rcases cmd with _ | c
    · simp only [loopIter.eq_def]
      split_ifs with hh <;> simpa using hhome s
    · simp only [loopIter.eq_def]
      split_ifs with hh <;>
        simpa using (hhome (processCmd c s).1).trans (processCmd_home_pin c s)
  · intro h1 h2 h3
    have hc : (s.m2.in_motion = true ∧ ¬ s.m2.direction_fwd = true ∧
        is_m2_home_active s = true) :=
      ⟨h1, by simp [h2], by rw [is_m2_home_active]; exact h3⟩
    simp only [loopIter.eq_def, m2_check_home_stop, if_pos hc]
    split_ifs with hh <;> simp [m2_stop, m2_pwm_enable]

/-- Witness for `c10_loop_reverse_home_stop`: a reverse feed in flight when
the home sensor asserts is stopped by the next loop iteration. -/
theorem c10_loop_reverse_home_stop_witness :
    (loopIter none 0 sRevHome).1.m2.in_motion = false ∧
    (loopIter none 0 sRevHome).1.m2_pwm_enabled = false ∧
    (loopIter none 0 sRevHome).2 = [Msg.m2Stopped] :=
  (c10_loop_reverse_home_stop none 0 sRevHome).2.2 rfl rfl rfl

end ESP32A
